import Mathlib

/-!
Shallow embedding of the `metrics-utils-macros` crate (`src/lib.rs`).

The crate provides two attribute macros, `measured_function` and
`measured_async_function`.  Each parses an optional string-literal
argument (`MacroArgs`, lines 5-20), and rewrites a function item so that
its body is timed and one histogram sample is recorded per normal
completion (the `quote!` blocks at lines 74-87 and 108-122).

We embed three layers:
  * the attribute-argument parsing (`MacroArgs`, `parseMacroArgs`);
  * the syntactic expansion (`measured_function_expand`,
    `measured_async_function_expand`), which records what the generated
    item looks like: attributes, visibility and signature are spliced
    verbatim, and the wrapper block is determined by a fixed metric name
    and the resolved label;
  * the runtime semantics of the generated wrapper block
    (`measured_function_run`, `measured_async_function_run`): the body
    either returns normally, after which the elapsed time is truncated
    to integer milliseconds (`Instant::elapsed().as_millis() as f64`)
    and one sample recorded, or it unwinds, in which case the record
    call is skipped and the unwinding propagates.
-/

namespace MetricsUtils

/-- How one invocation of a function body ends: a normal return carrying
the return value, or an unwinding failure (a Rust panic) carrying the
payload.  Unwinding skips the rest of the generated wrapper block. -/
inductive Outcome (α ε : Type) where
  | normal (v : α)
  | unwind (e : ε)
deriving DecidableEq, Repr

/-- One histogram sample as handed to the metrics backend by
`metrics::histogram!(name, labels).record(value)`: the metric name, the
label pairs, and the recorded `f64` value (modelled as a rational). -/
structure Sample where
  metric : String
  labels : List (String × String)
  value : ℚ
deriving DecidableEq, Repr

/-- The parsed attribute arguments (`struct MacroArgs`, src/lib.rs lines
5-7): an optional custom name taken from a string literal. -/
structure MacroArgs where
  custom_name : Option String
deriving DecidableEq, Repr

/-- One token of the attribute argument stream, as far as the parser
distinguishes them: a string literal (syn `LitStr`), or anything else. -/
inductive AttrToken where
  | litStr (s : String)
  | other (t : String)
deriving DecidableEq, Repr

/-- `input.parse::<LitStr>()`: consumes one leading string-literal token,
fails on an empty stream or any other leading token. -/
def parseLitStr : List AttrToken → Except String (String × List AttrToken)
  | AttrToken.litStr s :: rest => Except.ok (s, rest)
  | _ => Except.error "expected string literal"

/-- `impl Parse for MacroArgs` (src/lib.rs lines 9-20): an empty stream
yields no custom name; otherwise one string literal is parsed and kept.
Returns the unconsumed rest of the stream alongside the result. -/
def MacroArgs.parseFn (input : List AttrToken) :
    Except String (MacroArgs × List AttrToken) :=
  if input.isEmpty then Except.ok (⟨none⟩, input)
  else
    match parseLitStr input with
    | Except.error e => Except.error e
    | Except.ok (s, rest) => Except.ok (⟨some s⟩, rest)

/-- `parse_macro_input!(attr as MacroArgs)` (src/lib.rs lines 61 and 95):
runs `MacroArgs::parse` and then, as `syn::parse` does, rejects the input
with a compile-time error if any token is left unconsumed. -/
def parseMacroArgs (input : List AttrToken) : Except String MacroArgs :=
  match MacroArgs.parseFn input with
  | Except.error e => Except.error e
  | Except.ok (args, rest) =>
      if rest.isEmpty then Except.ok args
      else Except.error "unexpected token"

/-- The resolved metric label (`let metric_name = match args.custom_name`,
src/lib.rs lines 69-72 and 103-106): the custom literal when one was
supplied, else `stringify!` of the declared function identifier. -/
def metric_name (custom_name : Option String) (fn_name : String) : String :=
  match custom_name with
  | some name => name
  | none => fn_name

/-- `Instant::elapsed().as_millis()`: whole milliseconds elapsed, i.e.
the nanosecond count divided by 1,000,000 with truncation. -/
def as_millis (elapsedNs : Nat) : Nat :=
  elapsedNs / 1000000

/-- `as_millis(..) as f64`: the recorded floating-point value, an exact
image of the integer millisecond count. -/
def recordedValue (elapsedNs : Nat) : ℚ :=
  (as_millis elapsedNs : ℚ)

/-- Runtime semantics of the block generated by `measured_function`
(src/lib.rs lines 108-122): the original block runs as a closure; on a
normal return the elapsed milliseconds are recorded as one sample under
the constant metric name `"function_duration_milliseconds"` with the
single label pair `("function", label)`, and the value is returned; on a
panic the unwinding skips the record call and propagates. -/
def measured_function_run {α ε : Type} (label : String)
    (body : Outcome α ε) (elapsedNs : Nat) : Outcome α ε × List Sample :=
  match body with
  | Outcome.unwind e => (Outcome.unwind e, [])
  | Outcome.normal v =>
      (Outcome.normal v,
       [{ metric := "function_duration_milliseconds",
          labels := [("function", label)],
          value := recordedValue elapsedNs }])

/-- Runtime semantics of the block generated by `measured_async_function`
(src/lib.rs lines 74-87): the original block becomes an `async move`
block which is awaited between the two clock reads; on normal completion
one sample is recorded under `"async_function_duration_milliseconds"`
with the single label pair `("function", label)`; a panic surfacing from
the await propagates and nothing is recorded. -/
def measured_async_function_run {α ε : Type} (label : String)
    (body : Outcome α ε) (elapsedNs : Nat) : Outcome α ε × List Sample :=
  match body with
  | Outcome.unwind e => (Outcome.unwind e, [])
  | Outcome.normal v =>
      (Outcome.normal v,
       [{ metric := "async_function_duration_milliseconds",
          labels := [("function", label)],
          value := recordedValue elapsedNs }])

/-- The parts of a Rust function signature the macros read and splice
(`input_fn.sig`): asyncness, identifier, inputs and output are carried
verbatim inside `sig`, which `quote!` re-emits unchanged. -/
structure FnSig where
  is_async : Bool
  ident : String
  inputs : List String
  output : String
deriving DecidableEq, Repr

/-- A parsed function item (`syn::ItemFn`) as the macros decompose it:
outer attributes, visibility, signature, and the body block (kept
abstract as its token text). -/
structure FnItem where
  attrs : List String
  vis : String
  sig : FnSig
  block : String
deriving DecidableEq, Repr

/-- The function item emitted by either macro: the spliced attributes,
visibility and signature, plus the generated wrapper block, which is
fully determined by the constant metric name, the resolved label, and
the original body block. -/
structure ExpandedFn where
  attrs : List String
  vis : String
  sig : FnSig
  metric : String
  label : String
  body : String
deriving DecidableEq, Repr

/-- The expansion performed by `measured_function` (src/lib.rs lines
94-125) after parsing: attributes, visibility and signature are spliced
verbatim (`#(#attrs)* #vis #sig`), the metric name is the constant
`"function_duration_milliseconds"`, and the label is resolved from the
optional custom name and the declared identifier. -/
def measured_function_expand (args : MacroArgs) (f : FnItem) : ExpandedFn :=
  { attrs := f.attrs
    vis := f.vis
    sig := f.sig
    metric := "function_duration_milliseconds"
    label := metric_name args.custom_name f.sig.ident
    body := f.block }

/-- The expansion performed by `measured_async_function` (src/lib.rs
lines 60-90) after parsing: identical splicing, with the constant metric
name `"async_function_duration_milliseconds"`. -/
def measured_async_function_expand (args : MacroArgs) (f : FnItem) : ExpandedFn :=
  { attrs := f.attrs
    vis := f.vis
    sig := f.sig
    metric := "async_function_duration_milliseconds"
    label := metric_name args.custom_name f.sig.ident
    body := f.block }

/-- Wall-clock shape of one complete run of an awaited async body: the
active nanoseconds of each poll and the nanoseconds spent suspended
between polls.  The generated wrapper reads the clock before the await
and after it, so the whole trace lies between the two reads. -/
structure AsyncTrace where
  pollActiveNs : List Nat
  suspendedNs : List Nat
deriving DecidableEq, Repr

/-- The wall-clock time strictly internal to the async body: all active
poll time plus all time spent suspended awaiting inner work. -/
def AsyncTrace.bodyWallNs (t : AsyncTrace) : Nat :=
  t.pollActiveNs.sum + t.suspendedNs.sum

/-- The elapsed nanoseconds measured by the generated async wrapper
(`Instant::now()` at line 78, `elapsed()` at line 80): the await spans
the whole trace, so the measurement is the body's wall-clock time plus
any non-negative wrapper and scheduler overhead around it. -/
def measuredAsyncElapsedNs (t : AsyncTrace) (overheadNs : Nat) : Nat :=
  t.bodyWallNs + overheadNs

/-- C1: one invocation of a wrapped synchronous callable that completes
normally records exactly one duration sample, under the resolved label,
and returns the body's value unchanged; the same holds for the
asynchronous variant. -/
theorem wrapped_normal_completion_records_one_sample {α ε : Type}
    (custom : Option String) (declared : String) (v : α) (eNs : Nat) :
    measured_function_run (metric_name custom declared)
        (Outcome.normal v : Outcome α ε) eNs
      = (Outcome.normal v,
         [{ metric := "function_duration_milliseconds",
            labels := [("function", metric_name custom declared)],
            value := recordedValue eNs }])
    ∧ measured_async_function_run (metric_name custom declared)
        (Outcome.normal v : Outcome α ε) eNs
      = (Outcome.normal v,
         [{ metric := "async_function_duration_milliseconds",
            labels := [("function", metric_name custom declared)],
            value := recordedValue eNs }]) :=
  ⟨rfl, rfl⟩

/-- C2 counterexample: with a present-but-empty override on a function
declared `process_data`, the code resolves the label to the empty string,
whereas the claim requires the declared identifier in that case. -/
theorem empty_override_label_counterexample :
    metric_name (some "") "process_data" = "" ∧ "" ≠ "process_data" :=
  ⟨rfl, by decide⟩

/-- C2 (amended): the metric label equals the caller-supplied override
string whenever one is present, including the empty string, and otherwise
equals the declared identifier; in particular a custom label
`"custom_process_name"` on a function declared `process_data` yields
`"custom_process_name"`, and no custom label yields `"process_data"`. -/
theorem label_resolution (s declared : String) :
    metric_name (some s) declared = s
    ∧ metric_name none declared = declared
    ∧ metric_name (some "custom_process_name") "process_data"
        = "custom_process_name"
    ∧ metric_name none "process_data" = "process_data" :=
  ⟨rfl, rfl, rfl, rfl⟩

/-- C3: when the wrapped body fails (unwinds), either variant records
zero duration samples and propagates the failure unchanged. -/
theorem wrapped_failure_records_nothing {α ε : Type} (label : String)
    (e : ε) (eNs : Nat) :
    measured_function_run label (Outcome.unwind e : Outcome α ε) eNs
      = (Outcome.unwind e, [])
    ∧ measured_async_function_run label (Outcome.unwind e : Outcome α ε) eNs
      = (Outcome.unwind e, []) :=
  ⟨rfl, rfl⟩

/-- C4: every sample of the synchronous wrapper is recorded under the
constant histogram name `"function_duration_milliseconds"` and every
sample of the asynchronous wrapper under
`"async_function_duration_milliseconds"`, for every label, body outcome
and elapsed time. -/
theorem metric_names_constant {α ε : Type} (label : String)
    (body : Outcome α ε) (eNs : Nat) :
    ((measured_function_run label body eNs).2.all
        fun s => s.metric == "function_duration_milliseconds") = true
    ∧ ((measured_async_function_run label body eNs).2.all
        fun s => s.metric == "async_function_duration_milliseconds") = true := by
  cases body <;> simp [measured_function_run, measured_async_function_run]

/-- C5: for every normally completing invocation of either variant, the
recorded sample value equals the elapsed time truncated to a whole
number of milliseconds (the floor of the exact elapsed millisecond
count), so the recorded value is integer-valued and non-negative. -/
theorem recorded_value_truncated_ms (label : String) (v : Nat) (eNs : Nat) :
    (measured_function_run label (Outcome.normal v : Outcome Nat Unit) eNs).2.map
        Sample.value
      = [((⌊(eNs : ℚ) / (1000000 : ℚ)⌋₊ : ℕ) : ℚ)]
    ∧ (measured_async_function_run label
          (Outcome.normal v : Outcome Nat Unit) eNs).2.map Sample.value
      = [((⌊(eNs : ℚ) / (1000000 : ℚ)⌋₊ : ℕ) : ℚ)]
    ∧ (∃ k : ℕ, recordedValue eNs = (k : ℚ))
    ∧ 0 ≤ recordedValue eNs := by
  have h6 : (1000000 : ℚ) = ((1000000 : ℕ) : ℚ) := by norm_num
  have h : ((⌊(eNs : ℚ) / (1000000 : ℚ)⌋₊ : ℕ) : ℚ) = recordedValue eNs := by
    rw [h6, Nat.floor_div_eq_div]
    rfl
  have hnn : 0 ≤ recordedValue eNs := Nat.cast_nonneg (as_millis eNs)
  exact ⟨by simp [measured_function_run, h],
         by simp [measured_async_function_run, h],
         ⟨as_millis eNs, rfl⟩, hnn⟩

/-- C6: either macro emits a function whose outer attributes, visibility
and signature (asyncness, identifier, parameters, return type) are the
original ones spliced verbatim, wrapping the original body; running the
generated wrapper on a normal completion returns the body's value
unchanged, the only difference being the single recorded sample. -/
theorem expansion_preserves_signature {α ε : Type} (args : MacroArgs)
    (f : FnItem) (v : α) (eNs : Nat) :
    (measured_function_expand args f).attrs = f.attrs
    ∧ (measured_function_expand args f).vis = f.vis
    ∧ (measured_function_expand args f).sig = f.sig
    ∧ (measured_function_expand args f).body = f.block
    ∧ (measured_async_function_expand args f).attrs = f.attrs
    ∧ (measured_async_function_expand args f).vis = f.vis
    ∧ (measured_async_function_expand args f).sig = f.sig
    ∧ (measured_async_function_expand args f).body = f.block
    ∧ (measured_function_run (measured_function_expand args f).label
        (Outcome.normal v : Outcome α ε) eNs).1 = Outcome.normal v
    ∧ (measured_function_run (measured_function_expand args f).label
        (Outcome.normal v : Outcome α ε) eNs).2.length = 1
    ∧ (measured_async_function_run (measured_async_function_expand args f).label
        (Outcome.normal v : Outcome α ε) eNs).1 = Outcome.normal v
    ∧ (measured_async_function_run (measured_async_function_expand args f).label
        (Outcome.normal v : Outcome α ε) eNs).2.length = 1 :=
  ⟨rfl, rfl, rfl, rfl, rfl, rfl, rfl, rfl, rfl, rfl, rfl, rfl⟩

/-- C7: the asynchronous wrapper's timer spans the whole awaited body,
so the measured elapsed time is at least the wall-clock time strictly
internal to the body, including all time spent suspended awaiting inner
work, and that measured elapsed time is what one recorded sample of a
normal completion carries. -/
theorem async_timer_spans_suspension {α : Type} (t : AsyncTrace)
    (overheadNs : Nat) (label : String) (v : α) :
    t.bodyWallNs ≤ measuredAsyncElapsedNs t overheadNs
    ∧ t.suspendedNs.sum ≤ measuredAsyncElapsedNs t overheadNs
    ∧ (measured_async_function_run label (Outcome.normal v : Outcome α Unit)
          (measuredAsyncElapsedNs t overheadNs)).2
      = [{ metric := "async_function_duration_milliseconds",
           labels := [("function", label)],
           value := recordedValue (measuredAsyncElapsedNs t overheadNs) }] := by
  refine ⟨Nat.le_add_right _ _, ?_, rfl⟩
  calc t.suspendedNs.sum ≤ t.bodyWallNs := Nat.le_add_left _ _
    _ ≤ measuredAsyncElapsedNs t overheadNs := Nat.le_add_right _ _

/-- C8: every recorded sample of either variant carries exactly one
label pair, and its key is the fixed string `"function"`. -/
theorem samples_single_function_label {α ε : Type} (label : String)
    (body : Outcome α ε) (eNs : Nat) :
    ((measured_function_run label body eNs).2.all
        fun s => (s.labels.map Prod.fst == ["function"])
          && (s.labels.length == 1)) = true
    ∧ ((measured_async_function_run label body eNs).2.all
        fun s => (s.labels.map Prod.fst == ["function"])
          && (s.labels.length == 1)) = true := by
  cases body <;> simp [measured_function_run, measured_async_function_run]

/-- C9: a body that completes by returning an error-as-value result (an
`Err` of a `Result` return type) is a normal completion for either
wrapper: exactly one duration sample is recorded and the error value is
returned unchanged. -/
theorem error_value_is_normal_completion {γ δ ε : Type} (label : String)
    (err : δ) (eNs : Nat) :
    measured_function_run label
        (Outcome.normal (Except.error err) : Outcome (Except δ γ) ε) eNs
      = (Outcome.normal (Except.error err),
         [{ metric := "function_duration_milliseconds",
            labels := [("function", label)],
            value := recordedValue eNs }])
    ∧ measured_async_function_run label
        (Outcome.normal (Except.error err) : Outcome (Except δ γ) ε) eNs
      = (Outcome.normal (Except.error err),
         [{ metric := "async_function_duration_milliseconds",
            labels := [("function", label)],
            value := recordedValue eNs }]) :=
  ⟨rfl, rfl⟩

/-- C10: the attribute-argument parsing of both macros accepts exactly
two forms: an empty argument list, yielding no custom name, and a single
string literal, yielding that custom name; every other token stream (a
non-string-literal leading token, or trailing tokens after the literal)
is rejected with a parse error. -/
theorem attr_args_accept_exactly_empty_or_one_string (input : List AttrToken) :
    parseMacroArgs [] = Except.ok ⟨none⟩
    ∧ (∀ s, parseMacroArgs [AttrToken.litStr s] = Except.ok ⟨some s⟩)
    ∧ ((∃ a, parseMacroArgs input = Except.ok a)
        ↔ input = [] ∨ ∃ s, input = [AttrToken.litStr s]) := by
  refine ⟨rfl, fun s => rfl, ?_⟩
  cases input with
  | nil => simp [parseMacroArgs, MacroArgs.parseFn]
  | cons head tail =>
    cases head with
    | litStr s =>
      cases tail with
      | nil => simp [parseMacroArgs, MacroArgs.parseFn, parseLitStr]
      | cons h2 t2 => simp [parseMacroArgs, MacroArgs.parseFn, parseLitStr]
    | other t => simp [parseMacroArgs, MacroArgs.parseFn, parseLitStr]

end MetricsUtils
